import Mathlib

/-!
Shallow embedding of the download strategy of `src/downloader.py`
(`DirectOrCloudflareStrategy`) and of the response-candidate scoring and
challenge-resolution assembly of
`3rdparty/FlareSolverr/src/flaresolverr_service.py`.

Bytes are modelled as lists of naturals, the filesystem as an explicit
record of files and directories, and the external collaborators
(the FlareSolverr HTTP API, the real HTTP client, base64 decoding, the
`re`/`urljoin` standard-library calls and the markdown converter) as
oracle functions collected in an environment record.  Every call of the
embedded `download` returns the produced `DownloadResult`, the final
filesystem, and the trace of side-effect events, so that frame and
ordering properties can be stated.
-/

namespace PsyArt

/-- Byte strings (`bytes` of Python) as lists of naturals. -/
abbrev Bytes := List Nat

/-- The bytes stripped by Python `bytes.lstrip()`:
space, tab, newline, carriage return, vertical tab, form feed. -/
def byteIsSpace (b : Nat) : Bool :=
  b == 32 || b == 9 || b == 10 || b == 13 || b == 11 || b == 12

/-- The PDF signature `%PDF-` as bytes, from `b"%PDF-"` in the source. -/
def pdfSignature : Bytes := [37, 80, 68, 70, 45]

/-- `payload.lstrip().startswith(b"%PDF-")` of `downloader.py`. -/
def pdfSniff (payload : Bytes) : Bool :=
  pdfSignature.isPrefixOf (payload.dropWhile byteIsSpace)

/-- Python `str.encode("utf-8")` (never fails). -/
def utf8Bytes (s : String) : Bytes :=
  s.data.flatMap (fun c => (String.utf8EncodeChar c).map (fun b => b.toNat))

/-- Check whether `n` occurs as a contiguous run inside `h`. -/
def charsInfix (h n : List Char) : Bool :=
  n.isPrefixOf h ||
    match h with
    | [] => false
    | _ :: t => charsInfix t n

/-- Python `needle in haystack` on strings (substring containment). -/
def strContainsSub (haystack needle : String) : Bool :=
  charsInfix haystack.data needle.data

/-- Whether `t` is a suffix of `s`, used to state staging-file claims. -/
def strEndsWith (s t : String) : Bool :=
  t.data.isSuffixOf s.data

/-- Python `str.startswith`. -/
def pyStartsWith (s pre : String) : Bool :=
  pre.data.isPrefixOf s.data

/-- Python `str.lower()` (ASCII case folding, as in the data involved). -/
def strLower (s : String) : String :=
  ⟨s.data.map Char.toLower⟩

/-- Python emptiness test on a string. -/
def pyEmpty (s : String) : Bool :=
  s.data.isEmpty

/-- The characters stripped by Python `str.strip()`. -/
def pyIsSpaceChar (c : Char) : Bool :=
  c == ' ' || c == '\t' || c == '\n' || c == '\r' || c == '\x0b' || c == '\x0c'

/-- Python `str.strip()`. -/
def pyStrip (s : String) : String :=
  ⟨((s.data.dropWhile pyIsSpaceChar).reverse.dropWhile pyIsSpaceChar).reverse⟩

/-- Python `str.rstrip("/")`. -/
def rstripSlashes (s : String) : String :=
  ⟨(s.data.reverse.dropWhile (fun c => c == '/')).reverse⟩

/-- Python truthiness of an optional string (`None` and `""` are falsy). -/
def pyTruthy : Option String → Bool
  | none => false
  | some s => !pyEmpty s

/-- Python `a or b` where `a` is an optional string and `b` a string. -/
def pyOrS (a : Option String) (b : String) : String :=
  match a with
  | none => b
  | some s => if pyEmpty s then b else s

/-- A filesystem path, modelled after `pathlib.Path` as a parent
directory, a stem, and the final extension; `dir ++ stem ++ suffix` is the
rendered path.  `with_suffix` of `pathlib` replaces the final extension,
which is the `suffix` field here. -/
structure PyPath where
  dir : String
  stem : String
  suffix : String
deriving DecidableEq, Repr

/-- `Path.with_suffix` of `pathlib`. -/
def PyPath.withSuffix (p : PyPath) (s : String) : PyPath :=
  { p with suffix := s }

/-- The filesystem: the set of existing files and existing directories. -/
structure Fs where
  files : List PyPath
  dirs : List String
deriving DecidableEq, Repr

/-- `Path.exists` for files. -/
def Fs.fileExists (fs : Fs) (p : PyPath) : Bool :=
  decide (p ∈ fs.files)

/-- `dest.parent.mkdir(parents=True, exist_ok=True)`: ensure the
directory exists; an already existing directory is left untouched. -/
def Fs.mkdirParents (fs : Fs) (d : String) : Fs :=
  if d ∈ fs.dirs then fs else { fs with dirs := d :: fs.dirs }

/-- Create or overwrite a file. -/
def Fs.addFile (fs : Fs) (p : PyPath) : Fs :=
  if p ∈ fs.files then fs else { fs with files := p :: fs.files }

/-- `Path.unlink(missing_ok=True)`. -/
def Fs.removeFile (fs : Fs) (p : PyPath) : Fs :=
  { fs with files := fs.files.filter (fun q => decide (q ≠ p)) }

/-- Side-effect events recorded by a `download` run, in order. -/
inductive Event where
  | mkdirCall (dir : String)
  | resolverCall (url : String)
  | httpGet (url : String)
  | fileWrite (p : PyPath)
  | fileReplace (tmp dest : PyPath)
  | fileUnlink (p : PyPath)
  | mdWrite (p : PyPath)
deriving DecidableEq, Repr

/-- Network events: the `requests.post` to the FlareSolverr API
(`resolverCall`) and the real `session.get` (`httpGet`). -/
def Event.isNetwork : Event → Bool
  | Event.resolverCall _ => true
  | Event.httpGet _ => true
  | _ => false

/-- The `DownloadResult` dataclass of `downloader.py`. -/
structure DownloadResult where
  success : Bool
  message : String
  code : String
  status_code : Option Int := none
  bytes_written : Nat := 0
  via : String := "api"
deriving DecidableEq, Repr

/-- The `solution` dictionary returned by the FlareSolverr API, with the
keys read by `downloader.py`. -/
structure Solution where
  responseBody : Option String := none
  responseBodyBase64 : Bool := false
  responseBodyUrl : Option String := none
  url : Option String := none
  responseBodyMimeType : Option String := none
  responseBodyStatus : Option Int := none
  response : Option String := none
  cookies : List (String × String) := []
  userAgent : Option String := none
  status : Option Int := none
deriving DecidableEq, Repr

/-- A streamed `requests` response as observed by
`_download_with_solution`: status, `content-type` header, the first
8192-byte chunk, the remaining chunks, and the `content-length` header. -/
structure GetResp where
  status : Int
  contentType : String
  firstChunk : Bytes
  restChunks : List Bytes
  contentLength : Option String := none
deriving DecidableEq, Repr

/-- The external collaborators of the strategy, as deterministic oracles:
the FlareSolverr API (`solve`, an `Except.error` is an `ApiDownloadError`
raised by `_fetch_solution`), the real HTTP client (`get`, an
`Except.error` is a `requests.RequestException`), `base64.b64decode`
(`b64decode`), whether an `OSError` interrupts the staged write to a
destination (`writeFails`) and whether the interrupted write had already
created the staging file (`partWritten`), the `re.search` of the two
PDF-link patterns of `_extract_pdf_url` returning the captured group
(`reSearch`), `urllib.parse.urljoin` (`urljoin`), the markdown converter
returning the converted text when available (`mdConvert`), and whether
the markdown write itself fails (`mdWriteFails`). -/
structure DlEnv where
  solve : String → Except String Solution
  get : String → Except String GetResp
  b64decode : String → Except String Bytes
  writeFails : PyPath → Option String
  partWritten : PyPath → Bool
  reSearch : Nat → String → Option String
  urljoin : String → String → String
  mdConvert : PyPath → Option String
  mdWriteFails : PyPath → Bool

/-- `_write_markdown` of `downloader.py`: best-effort conversion of the
freshly written HTML file to a `.md` sibling; a missing converter, a
failed conversion or a failed write is tolerated and changes nothing. -/
def writeMarkdown (env : DlEnv) (fs : Fs) (htmlPath : PyPath) : Fs × List Event :=
  match env.mdConvert htmlPath with
  | none => (fs, [])
  | some _ =>
    if env.mdWriteFails (htmlPath.withSuffix ".md") then (fs, [])
    else (fs.addFile (htmlPath.withSuffix ".md"),
          [Event.mdWrite (htmlPath.withSuffix ".md")])

/-- `_write_payload` of `downloader.py`: write the payload to a `.part`
staging file next to `dest`, then rename it onto `dest`; on `OSError`
unlink the staging file (`missing_ok=True`) and report `write_error`. -/
def writePayload (env : DlEnv) (fs : Fs) (dest : PyPath) (payload : Bytes)
    (sol : Solution) (code : String) : DownloadResult × Fs × List Event :=
  let tmp := dest.withSuffix (dest.suffix ++ ".part")
  match env.writeFails dest with
  | some msg =>
    let fsMid := if env.partWritten dest then fs.addFile tmp else fs
    ({ success := false
       message := "Failed to write file: " ++ msg
       code := "write_error"
       via := "api" },
     fsMid.removeFile tmp,
     [Event.fileWrite tmp, Event.fileUnlink tmp])
  | none =>
    ({ success := true
       message := "Downloaded (" ++ toString payload.length ++ " bytes)"
       code := code
       status_code := sol.responseBodyStatus
       bytes_written := payload.length
       via := "api" },
     (((fs.addFile tmp).removeFile tmp).addFile dest),
     [Event.fileWrite tmp, Event.fileReplace tmp dest])

/-- `_is_pdf_response` of `downloader.py`: the `content-type` header,
lower-cased, contains `pdf`, or the first chunk sniffs as PDF. -/
def isPdfResponse (contentType : String) (firstChunk : Bytes) : Bool :=
  if strContainsSub (strLower contentType) "pdf" then true
  else pdfSniff firstChunk

/-- The HTML persistence step shared by `_download_with_response_body`
and `_download_with_html_response`: write the payload to the `.html`
sibling and, when that write succeeded, best-effort convert it to
markdown. -/
def htmlWrite (env : DlEnv) (fs : Fs) (dest : PyPath) (payload : Bytes)
    (sol : Solution) : DownloadResult × Fs × List Event :=
  if (writePayload env fs (dest.withSuffix ".html") payload sol "html").1.success then
    ((writePayload env fs (dest.withSuffix ".html") payload sol "html").1,
     (writeMarkdown env
       (writePayload env fs (dest.withSuffix ".html") payload sol "html").2.1
       (dest.withSuffix ".html")).1,
     (writePayload env fs (dest.withSuffix ".html") payload sol "html").2.2 ++
       (writeMarkdown env
         (writePayload env fs (dest.withSuffix ".html") payload sol "html").2.1
         (dest.withSuffix ".html")).2)
  else
    writePayload env fs (dest.withSuffix ".html") payload sol "html"

/-- `_download_with_response_body` of `downloader.py`: when the solution
carries a captured response body, decode it, sniff it, and persist it as
PDF (`ok`), HTML (`html`) or JSON (`json`); a non-PDF body for a target
URL containing `.pdf` yields `not_pdf`, any other unrecognized body
yields `not_html`.  Returns `none` when no body was captured. -/
def downloadWithResponseBody (env : DlEnv) (fs : Fs) (url : String)
    (dest : PyPath) (sol : Solution) : Option (DownloadResult × Fs × List Event) :=
  if !pyTruthy sol.responseBody then none else
  match
    (if sol.responseBodyBase64 then env.b64decode (sol.responseBody.getD "")
     else Except.ok (utf8Bytes (sol.responseBody.getD ""))) with
  | Except.error e =>
    some ({ success := false
            message := "Response body decode failed: " ++ e
            code := "decode_error"
            via := "api" }, fs, [])
  | Except.ok payload =>
    if pdfSniff payload then
      some (writePayload env fs dest payload sol "ok")
    else if strContainsSub (strLower (pyOrS sol.responseBodyUrl (pyOrS sol.url url))) ".pdf" then
      some ({ success := false
              message := "Not a PDF response"
              code := "not_pdf"
              status_code := sol.responseBodyStatus
              via := "api" }, fs, [])
    else if strContainsSub (strLower (sol.responseBodyMimeType.getD "")) "html" then
      some (htmlWrite env fs dest payload sol)
    else if strContainsSub (strLower (sol.responseBodyMimeType.getD "")) "json" then
      some (writePayload env fs (dest.withSuffix ".json") payload sol "json")
    else
      some ({ success := false
              message := "Not a PDF response"
              code := "not_html"
              status_code := sol.responseBodyStatus
              via := "api" }, fs, [])

/-- `_download_with_html_response` of `downloader.py`: when the solution
carries page HTML containing `<html`, persist it as the `.html` sibling
and best-effort convert it to markdown. -/
def downloadWithHtmlResponse (env : DlEnv) (fs : Fs) (dest : PyPath)
    (sol : Solution) : Option (DownloadResult × Fs × List Event) :=
  if !pyTruthy sol.response then none else
  if !strContainsSub (strLower (sol.response.getD "")) "<html" then none else
  some (htmlWrite env fs dest (utf8Bytes (sol.response.getD "")) sol)

/-- `_extract_pdf_url` of `downloader.py`: scan the solution HTML with
two regular expressions for a PDF-looking href and resolve it against
the solution URL; the `re.search` calls and `urljoin` are standard
library collaborators modelled by the environment oracles. -/
def extractPdfUrl (env : DlEnv) (url : String) (sol : Solution) : Option String :=
  if pyEmpty (pyOrS sol.response "") then none
  else
    match env.reSearch 0 (pyOrS sol.response "") with
    | some m => some (env.urljoin (pyOrS sol.url url) m)
    | none =>
      match env.reSearch 1 (pyOrS sol.response "") with
      | some m => some (env.urljoin (pyOrS sol.url url) m)
      | none => none

/-- `_download_with_solution` of `downloader.py`: replay a real HTTP GET
on the solution URL with the resolved cookies and user agent, stream the
body into a `.part` staging file and rename it onto `dest` on success;
`request_error` on a raised request, `http_error` on status ≥ 400,
`not_pdf` when the response does not sniff as PDF, `write_error` on a
failed write (the staging file is unlinked). -/
def downloadWithSolution (env : DlEnv) (fs : Fs) (url : String)
    (dest : PyPath) (sol : Solution) : DownloadResult × Fs × List Event :=
  match env.get (pyOrS sol.url url) with
  | Except.error e =>
    ({ success := false
       message := "Request failed: " ++ e
       code := "request_error"
       status_code := none
       via := "api" }, fs, [Event.httpGet (pyOrS sol.url url)])
  | Except.ok resp =>
    if resp.status ≥ 400 then
      ({ success := false
         message := "HTTP " ++ toString resp.status
         code := "http_error"
         status_code := some resp.status
         via := "api" }, fs, [Event.httpGet (pyOrS sol.url url)])
    else if !isPdfResponse resp.contentType resp.firstChunk then
      ({ success := false
         message := "Not a PDF response"
         code := "not_pdf"
         status_code := some resp.status
         via := "api" }, fs, [Event.httpGet (pyOrS sol.url url)])
    else
      match env.writeFails dest with
      | some msg =>
        ({ success := false
           message := "Failed to write file: " ++ msg
           code := "write_error"
           via := "api" },
         ((if env.partWritten dest
           then fs.addFile (dest.withSuffix (dest.suffix ++ ".part"))
           else fs).removeFile (dest.withSuffix (dest.suffix ++ ".part"))),
         [Event.httpGet (pyOrS sol.url url),
          Event.fileWrite (dest.withSuffix (dest.suffix ++ ".part")),
          Event.fileUnlink (dest.withSuffix (dest.suffix ++ ".part"))])
      | none =>
        ({ success := true
           message :=
             match resp.contentLength with
             | none =>
               "Downloaded (" ++
                 toString (resp.firstChunk.length +
                   (resp.restChunks.map List.length).sum) ++ " bytes)"
             | some cl => "Downloaded (" ++ cl ++ " bytes)"
           code := "ok"
           status_code := some resp.status
           bytes_written :=
             resp.firstChunk.length + (resp.restChunks.map List.length).sum
           via := "api" },
         (((fs.addFile (dest.withSuffix (dest.suffix ++ ".part"))).removeFile
             (dest.withSuffix (dest.suffix ++ ".part"))).addFile dest),
         [Event.httpGet (pyOrS sol.url url),
          Event.fileWrite (dest.withSuffix (dest.suffix ++ ".part")),
          Event.fileReplace (dest.withSuffix (dest.suffix ++ ".part")) dest])

/-- Whether a result of the captured-body stage makes `download` return
immediately: `body_result.success or body_result.code not in
{"not_pdf", "not_html"}`. -/
def bodyResultTerminal (r : DownloadResult) : Bool :=
  r.success || (r.code != "not_pdf" && r.code != "not_html")

/-- Steps 3 to 5 of `DirectOrCloudflareStrategy.download`: captured-HTML
persistence, PDF-link discovery (with a second FlareSolverr request for
the discovered link), and the real-HTTP replay. -/
def downloadTail (env : DlEnv) (fs1 : Fs) (url : String) (dest : PyPath)
    (sol : Solution) (evAcc : List Event) : DownloadResult × Fs × List Event :=
  match downloadWithHtmlResponse env fs1 dest sol with
  | some step => (step.1, step.2.1, evAcc ++ step.2.2)
  | none =>
    match extractPdfUrl env url sol with
    | some pdfUrl =>
      match env.solve pdfUrl with
      | Except.error e =>
        ({ success := false
           message := e
           code := "api_error"
           via := "api" }, fs1, evAcc ++ [Event.resolverCall pdfUrl])
      | Except.ok pdfSol =>
        match downloadWithResponseBody env fs1 pdfUrl dest pdfSol with
        | some step =>
          if bodyResultTerminal step.1 then
            (step.1, step.2.1, evAcc ++ [Event.resolverCall pdfUrl] ++ step.2.2)
          else
            ((downloadWithSolution env step.2.1 pdfUrl dest pdfSol).1,
             (downloadWithSolution env step.2.1 pdfUrl dest pdfSol).2.1,
             evAcc ++ [Event.resolverCall pdfUrl] ++ step.2.2 ++
               (downloadWithSolution env step.2.1 pdfUrl dest pdfSol).2.2)
        | none =>
          ((downloadWithSolution env fs1 pdfUrl dest pdfSol).1,
           (downloadWithSolution env fs1 pdfUrl dest pdfSol).2.1,
           evAcc ++ [Event.resolverCall pdfUrl] ++
             (downloadWithSolution env fs1 pdfUrl dest pdfSol).2.2)
    | none =>
      ((downloadWithSolution env fs1 url dest sol).1,
       (downloadWithSolution env fs1 url dest sol).2.1,
       evAcc ++ (downloadWithSolution env fs1 url dest sol).2.2)

/-- The idempotence guard of `download`: the destination or one of its
`.html`, `.json`, `.md` siblings already exists. -/
def existsCheck (fs0 : Fs) (dest : PyPath) : Bool :=
  fs0.fileExists dest || fs0.fileExists (dest.withSuffix ".html") ||
    fs0.fileExists (dest.withSuffix ".json") || fs0.fileExists (dest.withSuffix ".md")

/-- `DirectOrCloudflareStrategy.download` of `downloader.py`: ensure the
parent directory, return `exists` when the destination or a `.html`,
`.json` or `.md` sibling is already present, otherwise ask FlareSolverr
for a solution and then in order: persist a captured response body,
persist captured page HTML, follow a PDF link discovered in the HTML
(asking FlareSolverr again for it), and finally replay a real HTTP GET
with the resolved cookies.  The strategy object keeps no mutable state
across calls (its constructor stores only immutable configuration), so
each call is an independent function of the environment and filesystem.
Returns the result, the final filesystem and the ordered event trace. -/
def download (env : DlEnv) (fs : Fs) (url : String) (dest : PyPath) :
    DownloadResult × Fs × List Event :=
  if existsCheck (fs.mkdirParents dest.dir) dest then
    ({ success := true
       message := "Already exists"
       code := "exists"
       via := "api" }, fs.mkdirParents dest.dir, [Event.mkdirCall dest.dir])
  else
    match env.solve url with
    | Except.error e =>
      ({ success := false
         message := e
         code := "api_error"
         via := "api" }, fs.mkdirParents dest.dir,
       [Event.mkdirCall dest.dir, Event.resolverCall url])
    | Except.ok sol =>
      match downloadWithResponseBody env (fs.mkdirParents dest.dir) url dest sol with
      | some step =>
        if bodyResultTerminal step.1 then
          (step.1, step.2.1,
           [Event.mkdirCall dest.dir, Event.resolverCall url] ++ step.2.2)
        else
          downloadTail env step.2.1 url dest sol
            ([Event.mkdirCall dest.dir, Event.resolverCall url] ++ step.2.2)
      | none =>
        downloadTail env (fs.mkdirParents dest.dir) url dest sol
          [Event.mkdirCall dest.dir, Event.resolverCall url]

/-- `_normalize_url` of `flaresolverr_service.py`:
`url.strip().lower().rstrip("/")`. -/
def normalizeUrl (url : String) : String :=
  rstripSlashes (strLower (pyStrip url))

/-- `_score_response_candidate` of `flaresolverr_service.py`. -/
def scoreResponseCandidate (url : String) (mimeType : String)
    (status : Option Int) (resourceType : Option String)
    (targets : List String) : Int :=
  let normalizedUrl := normalizeUrl url
  let s1 : Int := if normalizedUrl ∈ targets then 10 else 0
  let s2 : Int :=
    if targets.any (fun t => pyStartsWith normalizedUrl t || pyStartsWith t normalizedUrl)
    then 4 else 0
  let s3 : Int := if strContainsSub (strLower mimeType) "pdf" then 6 else 0
  let s4 : Int := if strContainsSub normalizedUrl ".pdf" then 4 else 0
  let s5 : Int := if resourceType == some "Document" then 2 else 0
  let s6 : Int :=
    match status with
    | some st => if 200 ≤ st ∧ st < 300 then 1 else 0
    | none => 0
  s1 + s2 + s3 + s4 + s5 + s6

/-- A parsed performance-log entry as read by `_extract_response_body`:
the CDP message method, `params.requestId`, `response.url`,
`response.mimeType` (defaulting to the empty string), `response.status`
and `params.type`. -/
structure PerfEntry where
  method : Option String := none
  requestId : Option String := none
  url : Option String := none
  mimeType : String := ""
  status : Option Int := none
  resourceType : Option String := none
deriving DecidableEq, Repr

/-- A scored candidate tuple `(score, index, request_id, url, mime_type,
status)` of `_extract_response_body`. -/
structure Candidate where
  score : Int
  index : Nat
  requestId : String
  url : String
  mimeType : String
  status : Option Int
deriving DecidableEq, Repr

/-- One iteration of the candidate loop of `_extract_response_body`:
keep only `Network.responseReceived` events that carry a truthy request
id and url, score them, and drop scores ≤ 0. -/
def entryCandidate (targets : List String) (index : Nat)
    (e : PerfEntry) : Option Candidate :=
  if e.method != some "Network.responseReceived" then none
  else
    match e.requestId, e.url with
    | some rid, some u =>
      if pyEmpty rid || pyEmpty u then none
      else
        if 0 < scoreResponseCandidate u e.mimeType e.status e.resourceType targets then
          some ⟨scoreResponseCandidate u e.mimeType e.status e.resourceType targets,
                index, rid, u, e.mimeType, e.status⟩
        else none
    | _, _ => none

/-- The candidate list of `_extract_response_body`, indexed by
`enumerate(perf_logs)`. -/
def collectCandidates (targets : List String) (entries : List PerfEntry) :
    List Candidate :=
  entries.enum.filterMap (fun ie => entryCandidate targets ie.1 ie.2)

/-- Strict lexicographic order on the `(score, index)` sort key of
`candidates.sort(key=lambda item: (item[0], item[1]), reverse=True)`. -/
def candidateKeyLt (a b : Candidate) : Bool :=
  a.score < b.score || (a.score == b.score && a.index < b.index)

/-- `candidates.sort(..., reverse=True); candidates[0]` of
`_extract_response_body`: the candidate with the largest `(score, index)`
key.  Sort keys are distinct because `enumerate` indices are, so the
descending stable sort and this fold pick the same element. -/
def pickCandidate (cs : List Candidate) : Option Candidate :=
  cs.foldl
    (fun best c =>
      match best with
      | none => some c
      | some b => if candidateKeyLt b c then some c else some b)
    none

/-- `targets = {_normalize_url(url) for url in [req.url, driver.current_url]
if url}` of `_extract_response_body`. -/
def buildTargets (reqUrl currentUrl : String) : List String :=
  ((if pyEmpty reqUrl then [] else [normalizeUrl reqUrl]) ++
    (if pyEmpty currentUrl then [] else [normalizeUrl currentUrl])).dedup

/-- The winning request id for a fixed target set and log, as selected by
`_extract_response_body`. -/
def selectRequestId (targets : List String) (entries : List PerfEntry) :
    Option String :=
  (pickCandidate (collectCandidates targets entries)).map Candidate.requestId

/-- `ACCESS_DENIED_TITLES` of `flaresolverr_service.py`. -/
def accessDeniedTitles : List String :=
  ["Access denied", "Attention Required! | Cloudflare"]

/-- `ACCESS_DENIED_SELECTORS` of `flaresolverr_service.py`. -/
def accessDeniedSelectors : List String :=
  ["div.cf-error-title span.cf-code-label span",
   "#cf-error-details div.cf-error-overview h1"]

/-- `CHALLENGE_TITLES` of `flaresolverr_service.py`. -/
def challengeTitles : List String :=
  ["Just a moment...", "DDoS-Guard"]

/-- `CHALLENGE_SELECTORS` of `flaresolverr_service.py`. -/
def challengeSelectors : List String :=
  ["#cf-challenge-running", ".ray_id", ".attack-box", "#cf-please-wait",
   "#challenge-spinner", "#trk_jschal_js", "#turnstile-wrapper", ".lds-ring",
   "td.info #js_info", "div.vc div.text-box h2"]

/-- The request fields of `V1RequestBase` read by `_evil_logic`. -/
structure ChallengeRequest where
  url : String
  returnOnlyCookies : Bool := false
  returnResponseBody : Bool := false
  returnScreenshot : Bool := false
  waitInSeconds : Option Int := none
deriving Repr

/-- The state of the browser as observed through the driver: page title,
current URL, cookies, user agent, page source, and the set of CSS
selectors that match at least one element. -/
structure DriverView where
  title : String
  currentUrl : String
  cookies : List (String × String)
  userAgent : String
  pageSource : String
  selectorsPresent : List String
deriving Repr

/-- The `ChallengeResolutionResultT` assembled by `_evil_logic`. -/
structure ChallengeResult where
  url : String
  status : Int
  cookies : List (String × String)
  userAgent : String
  turnstileToken : Option String := none
  headersEmpty : Bool := false
  response : Option String := none
  responseBody : Option String := none
  screenshot : Option String := none
deriving Repr

/-- The `ChallengeResolutionT` wrapper returned by `_evil_logic`. -/
structure ChallengeResolution where
  status : String
  message : String
  result : ChallengeResult
deriving Repr

/-- The result and solution assembly of `_evil_logic` of
`flaresolverr_service.py`.  `nav` is the browser state right after
navigation (used for the access-denied and challenge checks) and `fin`
the state when the solution is assembled after the challenge wait loop
(the loop itself only waits and clicks; an outer `func_timeout` aborts
the whole routine, in which case no solution is produced).  An
`Except.error` is the exception raised on an access-denied page.  The
reported HTTP status is the constant `200` because the browser layer
cannot observe the real status. -/
def evilLogic (req : ChallengeRequest) (nav fin : DriverView)
    (_method : String) (turnstileToken : Option String)
    (capturedBody : Option String) (screenshotData : String) :
    Except String ChallengeResolution :=
  if accessDeniedTitles.any (fun t => pyStartsWith nav.title t) then
    Except.error "Cloudflare has blocked this request. Probably your IP is banned for this site, check in your web browser."
  else if accessDeniedSelectors.any (fun s => s ∈ nav.selectorsPresent) then
    Except.error "Cloudflare has blocked this request. Probably your IP is banned for this site, check in your web browser."
  else
    let challengeFound :=
      challengeTitles.any (fun t => strLower t == strLower nav.title) ||
        challengeSelectors.any (fun s => s ∈ nav.selectorsPresent)
    Except.ok
      { status := "ok"
        message := if challengeFound then "Challenge solved!" else "Challenge not detected!"
        result :=
          { url := fin.currentUrl
            status := 200
            cookies := fin.cookies
            userAgent := fin.userAgent
            turnstileToken := turnstileToken
            headersEmpty := !req.returnOnlyCookies
            response := if req.returnOnlyCookies then none else some fin.pageSource
            responseBody := if req.returnResponseBody then capturedBody else none
            screenshot := if req.returnScreenshot then some screenshotData else none } }

/-! Concrete fixtures used by the witness and counterexample theorems. -/

/-- An empty filesystem. -/
def emptyFs : Fs := { files := [], dirs := [] }

/-- A first destination path, `download/paper1.pdf`. -/
def destA : PyPath := { dir := "download/", stem := "paper1", suffix := ".pdf" }

/-- A second destination path on the same directory. -/
def destB : PyPath := { dir := "download/", stem := "paper2", suffix := ".pdf" }

/-- A PDF URL used by the concrete runs. -/
def urlA : String := "https://x.test/a.pdf"

/-- An environment in which the FlareSolverr API request fails, the real
HTTP client raises, and nothing else happens. -/
def failEnv : DlEnv :=
  { solve := fun _ => Except.error "API request failed: boom"
    get := fun _ => Except.error "connection refused"
    b64decode := fun _ => Except.error "bad base64"
    writeFails := fun _ => none
    partWritten := fun _ => false
    reSearch := fun _ _ => none
    urljoin := fun a _ => a
    mdConvert := fun _ => none
    mdWriteFails := fun _ => false }

/-- A solution carrying an HTML response body for a `.pdf` target URL,
together with page HTML: the captured-body stage classifies it
`not_pdf`, and the page HTML is available for the fall-through. -/
def solC3 : Solution :=
  { responseBody := some "<html>hi</html>"
    responseBodyBase64 := false
    responseBodyUrl := some "https://x.test/a.pdf"
    url := some "https://x.test/a.pdf"
    responseBodyMimeType := some "text/html"
    responseBodyStatus := some 200
    response := some "<html>hi</html>" }

/-- An environment whose resolver returns `solC3` for every URL. -/
def envC3 : DlEnv := { failEnv with solve := fun _ => Except.ok solC3 }

/-- A filesystem on which `destA` already exists (with its parent). -/
def fsExist : Fs := { files := [destA], dirs := ["download/"] }

/-- A leftover staging file from some earlier run. -/
def partFile : PyPath := { dir := "download/", stem := "old", suffix := ".pdf.part" }

/-- A filesystem holding only that leftover staging file. -/
def fsPart : Fs := { files := [partFile], dirs := ["download/"] }

/-- Two identically scored `Network.responseReceived` entries differing
only in request id; the tie must be broken towards the later one. -/
def tieEntries : List PerfEntry :=
  [{ method := some "Network.responseReceived", requestId := some "A",
     url := some "https://x.test/a.pdf", mimeType := "application/pdf",
     status := some 200, resourceType := some "Document" },
   { method := some "Network.responseReceived", requestId := some "B",
     url := some "https://x.test/a.pdf", mimeType := "application/pdf",
     status := some 200, resourceType := some "Document" }]

/-- The target set for the tie scenario. -/
def tieTargets : List String := buildTargets "https://x.test/a.pdf" "https://x.test/a.pdf"

/-- A minimal challenge request. -/
def reqA : ChallengeRequest := { url := "https://x.test/a.pdf" }

/-- A browser state showing an ordinary page (no denial, no challenge). -/
def viewA : DriverView :=
  { title := "Example Domain"
    currentUrl := "https://x.test/a.pdf"
    cookies := [("cf_clearance", "tok")]
    userAgent := "UA"
    pageSource := "<html></html>"
    selectorsPresent := [] }

/-- The resolution assembled for `reqA` over `viewA`, with an error
fallback value that is never reached. -/
def evilOutA : ChallengeResolution :=
  match evilLogic reqA viewA viewA "GET" none none "" with
  | Except.ok o => o
  | Except.error _ => ⟨"", "", ⟨"", 0, [], "", none, false, none, none, none⟩⟩

/-- The non-strict lexicographic order on the `(score, index)` sort key,
used to state maximality of the selected candidate. -/
def keyLe (a b : Candidate) : Prop :=
  a.score < b.score ∨ (a.score = b.score ∧ a.index ≤ b.index)

/-- The candidate that must win the tie scenario: the later entry. -/
def tieWinner : Candidate :=
  ⟨27, 1, "B", "https://x.test/a.pdf", "application/pdf", some 200⟩

/-! Shared lemmas. -/

theorem dropWhile_append_of_all {p : Nat → Bool} {ws l : Bytes}
    (h : ∀ b ∈ ws, p b = true) :
    List.dropWhile p (ws ++ l) = List.dropWhile p l := by
  induction ws with
  | nil => rfl
  | cons a t ih =>
    have ha : p a = true := h a (List.mem_cons_self a t)
    simp only [List.cons_append, List.dropWhile_cons, ha, if_true]
    exact ih (fun b hb => h b (List.mem_cons_of_mem a hb))

theorem pdfSniff_length {l : Bytes} (h : pdfSniff l = true) : 5 ≤ l.length := by
  unfold pdfSniff at h
  rw [List.isPrefixOf_iff_prefix] at h
  have h1 : pdfSignature.length ≤ (l.dropWhile byteIsSpace).length :=
    h.length_le
  have h2 : (l.dropWhile byteIsSpace).length ≤ l.length :=
    (List.dropWhile_sublist byteIsSpace).length_le
  simpa [pdfSignature] using le_trans h1 h2

/-- C7: the PDF byte sniff of the escalator holds exactly on byte strings
that are the signature `%PDF-` preceded by whitespace bytes (hence it is
false on the empty string and on every proper prefix of the signature),
and the response-level check of `_is_pdf_response` is the disjunction of
the lower-cased content-type containing `pdf` and the byte sniff of the
first chunk. -/
theorem pdf_sniff_characterization (bytes : Bytes) (ct : String) (chunk : Bytes) :
    (pdfSniff bytes = true ↔
      ∃ ws rest, bytes = ws ++ pdfSignature ++ rest ∧ ∀ b ∈ ws, byteIsSpace b = true)
    ∧ pdfSniff [] = false
    ∧ (∀ pre : Bytes, pre.isPrefixOf pdfSignature = true → pre ≠ pdfSignature →
        pdfSniff pre = false)
    ∧ isPdfResponse ct chunk = (strContainsSub (strLower ct) "pdf" || pdfSniff chunk) := by
  refine ⟨⟨?_, ?_⟩, by decide, ?_, ?_⟩
  · intro h
    unfold pdfSniff at h
    rw [List.isPrefixOf_iff_prefix] at h
    obtain ⟨rest, hrest⟩ := h
    refine ⟨bytes.takeWhile byteIsSpace, rest, ?_, ?_⟩
    · rw [List.append_assoc, hrest, List.takeWhile_append_dropWhile]
    · intro b hb
      exact List.mem_takeWhile_imp hb
  · rintro ⟨ws, rest, hb, hws⟩
    unfold pdfSniff
    rw [hb, List.append_assoc, dropWhile_append_of_all hws]
    have : List.dropWhile byteIsSpace (pdfSignature ++ rest) = pdfSignature ++ rest := by
      simp [pdfSignature, List.dropWhile_cons, byteIsSpace]
    rw [this, List.isPrefixOf_iff_prefix]
    exact List.prefix_append pdfSignature rest
  · intro pre hpre hne
    cases h : pdfSniff pre with
    | false => rfl
    | true =>
      exfalso
      rw [List.isPrefixOf_iff_prefix] at hpre
      have hlen5 : 5 ≤ pre.length := pdfSniff_length h
      have hle : pre.length ≤ pdfSignature.length := hpre.length_le
      have : pre = pdfSignature := by
        apply hpre.eq_of_length
        simp only [pdfSignature, List.length_cons, List.length_nil] at hle ⊢
        omega
      exact hne this
  · unfold isPdfResponse
    cases strContainsSub (strLower ct) "pdf" <;> simp

/-- Witness for C7: a truncated signature fails the sniff, and a
whitespace-padded signature passes it, by the characterization itself. -/
theorem pdf_sniff_characterization_witness :
    pdfSniff [37, 80, 68, 70] = false ∧ pdfSniff [32, 37, 80, 68, 70, 45] = true :=
  ⟨(pdf_sniff_characterization [] "" []).2.2.1 [37, 80, 68, 70] (by decide) (by decide),
   (pdf_sniff_characterization [32, 37, 80, 68, 70, 45] "" []).1.mpr
     ⟨[32], [], by decide, by decide⟩⟩

/-- C9: every solution assembled by `_evil_logic` reports HTTP status
200, for every request, browser state, method and outcome. -/
theorem evil_logic_status_200 (req : ChallengeRequest) (nav fin : DriverView)
    (method : String) (tok : Option String) (cap : Option String)
    (scr : String) (out : ChallengeResolution)
    (h : evilLogic req nav fin method tok cap scr = Except.ok out) :
    out.result.status = 200 := by
  unfold evilLogic at h
  split at h
  · exact absurd h (by simp)
  · split at h
    · exact absurd h (by simp)
    · cases h
      rfl

/-- Witness for C9: the concrete run over `viewA` assembles a solution
and its reported status is 200. -/
theorem evil_logic_status_200_witness :
    evilLogic reqA viewA viewA "GET" none none "" = Except.ok evilOutA ∧
      evilOutA.result.status = 200 :=
  ⟨rfl, evil_logic_status_200 reqA viewA viewA "GET" none none "" evilOutA rfl⟩

/-- The success codes: `success` must hold exactly for them. -/
def codeOk (c : String) : Bool :=
  c == "exists" || c == "ok" || c == "html" || c == "json"

/-- The invariant of every produced result: `success` is determined by
`code`, and `via` is the constant `"api"`. -/
def resultInv (r : DownloadResult) : Prop :=
  r.success = codeOk r.code ∧ r.via = "api"

theorem writePayload_inv (env : DlEnv) (fs : Fs) (dest : PyPath)
    (payload : Bytes) (sol : Solution) (code : String)
    (hc : codeOk code = true) :
    resultInv (writePayload env fs dest payload sol code).1 := by
  cases h : env.writeFails dest with
  | some msg => simp [writePayload, h, resultInv, codeOk]
  | none => simp [writePayload, h, resultInv, hc]

theorem writePayload_via (env : DlEnv) (fs : Fs) (dest : PyPath)
    (payload : Bytes) (sol : Solution) (code : String) :
    (writePayload env fs dest payload sol code).1.via = "api" := by
  cases h : env.writeFails dest with
  | some msg => simp [writePayload, h]
  | none => simp [writePayload, h]

theorem htmlWrite_inv (env : DlEnv) (fs : Fs) (dest : PyPath)
    (payload : Bytes) (sol : Solution) :
    resultInv (htmlWrite env fs dest payload sol).1 := by
  unfold htmlWrite
  split
  · exact writePayload_inv _ _ _ _ _ _ (by decide)
  · exact writePayload_inv _ _ _ _ _ _ (by decide)

theorem dwrb_inv (env : DlEnv) (fs : Fs) (url : String) (dest : PyPath)
    (sol : Solution) (out : DownloadResult × Fs × List Event)
    (h : downloadWithResponseBody env fs url dest sol = some out) :
    resultInv out.1 := by
  unfold downloadWithResponseBody at h
  split at h
  · exact absurd h (by simp)
  · split at h
    · cases h
      simp [resultInv, codeOk]
    · split at h
      · cases h
        exact writePayload_inv _ _ _ _ _ _ (by decide)
      · split at h
        · cases h
          simp [resultInv, codeOk]
        · split at h
          · cases h
            exact htmlWrite_inv _ _ _ _ _
          · split at h
            · cases h
              exact writePayload_inv _ _ _ _ _ _ (by decide)
            · cases h
              simp [resultInv, codeOk]

theorem dwhr_inv (env : DlEnv) (fs : Fs) (dest : PyPath) (sol : Solution)
    (out : DownloadResult × Fs × List Event)
    (h : downloadWithHtmlResponse env fs dest sol = some out) :
    resultInv out.1 := by
  unfold downloadWithHtmlResponse at h
  split at h
  · exact absurd h (by simp)
  · split at h
    · exact absurd h (by simp)
    · cases h
      exact htmlWrite_inv _ _ _ _ _

theorem dws_inv (env : DlEnv) (fs : Fs) (url : String) (dest : PyPath)
    (sol : Solution) :
    resultInv (downloadWithSolution env fs url dest sol).1 := by
  unfold downloadWithSolution
  split
  · simp [resultInv, codeOk]
  · split
    · simp [resultInv, codeOk]
    · split
      · simp [resultInv, codeOk]
      · split
        · simp [resultInv, codeOk]
        · simp [resultInv, codeOk]

theorem tail_inv (env : DlEnv) (fs : Fs) (url : String) (dest : PyPath)
    (sol : Solution) (ev : List Event) :
    resultInv (downloadTail env fs url dest sol ev).1 := by
  unfold downloadTail
  split
  · rename_i step hstep
    exact dwhr_inv _ _ _ _ step hstep
  · split
    · split
      · simp [resultInv, codeOk]
      · split
        · rename_i step hstep
          split
          · exact dwrb_inv _ _ _ _ _ step hstep
          · exact dws_inv _ _ _ _ _
        · exact dws_inv _ _ _ _ _
    · exact dws_inv _ _ _ _ _

theorem download_inv (env : DlEnv) (fs : Fs) (url : String) (dest : PyPath) :
    resultInv (download env fs url dest).1 := by
  unfold download
  split
  · simp [resultInv, codeOk]
  · split
    · simp [resultInv, codeOk]
    · split
      · rename_i step hstep
        split
        · exact dwrb_inv _ _ _ _ _ step hstep
        · exact tail_inv _ _ _ _ _ _
      · exact tail_inv _ _ _ _ _ _

/-- C6: for every result produced by `download`, `success` holds exactly
when `code` is one of `exists`, `ok`, `html`, `json`; every other code
comes with `success = false`. -/
theorem download_success_iff_code (env : DlEnv) (fs : Fs) (url : String)
    (dest : PyPath) :
    (download env fs url dest).1.success =
      (((download env fs url dest).1.code == "exists") ||
        ((download env fs url dest).1.code == "ok") ||
        ((download env fs url dest).1.code == "html") ||
        ((download env fs url dest).1.code == "json")) :=
  (download_inv env fs url dest).1

/-- C10: `via` is the constant `"api"` on every result produced by
`download` and by each of its helpers. -/
theorem via_always_api (env : DlEnv) (fs : Fs) (url u : String)
    (dest : PyPath) (sol : Solution) (payload : Bytes) (code : String)
    (ev : List Event) :
    (download env fs url dest).1.via = "api" ∧
      (writePayload env fs dest payload sol code).1.via = "api" ∧
      (downloadWithSolution env fs u dest sol).1.via = "api" ∧
      (downloadTail env fs u dest sol ev).1.via = "api" ∧
      ((downloadWithResponseBody env fs u dest sol).map
        (fun r => r.1.via)).getD "api" = "api" ∧
      ((downloadWithHtmlResponse env fs dest sol).map
        (fun r => r.1.via)).getD "api" = "api" := by
  refine ⟨(download_inv env fs url dest).2,
    writePayload_via env fs dest payload sol code,
    (dws_inv env fs u dest sol).2,
    (tail_inv env fs u dest sol ev).2, ?_, ?_⟩
  · cases h : downloadWithResponseBody env fs u dest sol with
    | none => rfl
    | some out => simpa using (dwrb_inv _ _ _ _ _ _ h).2
  · cases h : downloadWithHtmlResponse env fs dest sol with
    | none => rfl
    | some out => simpa using (dwhr_inv _ _ _ _ _ h).2

theorem withSuffix_withSuffix (p : PyPath) (s t : String) :
    (p.withSuffix s).withSuffix t = p.withSuffix t := rfl

theorem mem_files_addFile {fs : Fs} {p q : PyPath}
    (h : p ∈ (fs.addFile q).files) : p ∈ fs.files ∨ p = q := by
  unfold Fs.addFile at h
  split at h
  · exact Or.inl h
  · rcases List.mem_cons.mp h with h1 | h1
    · exact Or.inr h1
    · exact Or.inl h1

theorem mem_files_removeFile {fs : Fs} {p q : PyPath}
    (h : p ∈ (fs.removeFile q).files) : p ∈ fs.files ∧ p ≠ q := by
  unfold Fs.removeFile at h
  rcases List.mem_filter.mp h with ⟨h1, h2⟩
  exact ⟨h1, of_decide_eq_true h2⟩

theorem files_mkdirParents (fs : Fs) (d : String) :
    (fs.mkdirParents d).files = fs.files := by
  unfold Fs.mkdirParents
  split <;> rfl

theorem mem_files_writeMarkdown {env : DlEnv} {fs : Fs} {hp p : PyPath}
    (h : p ∈ (writeMarkdown env fs hp).1.files) :
    p ∈ fs.files ∨ p = hp.withSuffix ".md" := by
  unfold writeMarkdown at h
  split at h
  · exact Or.inl h
  · split at h
    · exact Or.inl h
    · exact mem_files_addFile h

theorem mem_files_writePayload {env : DlEnv} {fs : Fs} {dest : PyPath}
    {payload : Bytes} {sol : Solution} {code : String} {p : PyPath}
    (h : p ∈ (writePayload env fs dest payload sol code).2.1.files) :
    p ∈ fs.files ∨ p = dest := by
  cases hW : env.writeFails dest with
  | some msg =>
    simp only [writePayload, hW] at h
    rcases mem_files_removeFile h with ⟨h1, h2⟩
    split at h1
    · rcases mem_files_addFile h1 with h3 | h3
      · exact Or.inl h3
      · exact absurd h3 h2
    · exact Or.inl h1
  | none =>
    simp only [writePayload, hW] at h
    rcases mem_files_addFile h with h1 | h1
    · rcases mem_files_removeFile h1 with ⟨h2, h3⟩
      rcases mem_files_addFile h2 with h4 | h4
      · exact Or.inl h4
      · exact absurd h4 h3
    · exact Or.inr h1

theorem mem_files_htmlWrite {env : DlEnv} {fs : Fs} {dest : PyPath}
    {payload : Bytes} {sol : Solution} {p : PyPath}
    (h : p ∈ (htmlWrite env fs dest payload sol).2.1.files) :
    p ∈ fs.files ∨ p = dest.withSuffix ".html" ∨ p = dest.withSuffix ".md" := by
  unfold htmlWrite at h
  split at h
  · rcases mem_files_writeMarkdown h with h1 | h1
    · rcases mem_files_writePayload h1 with h2 | h2
      · exact Or.inl h2
      · exact Or.inr (Or.inl h2)
    · exact Or.inr (Or.inr h1)
  · rcases mem_files_writePayload h with h1 | h1
    · exact Or.inl h1
    · exact Or.inr (Or.inl h1)

/-- The only files a stage may create: the destination and its `.html`,
`.json`, `.md` siblings. -/
def newFileOf (dest p : PyPath) : Prop :=
  p = dest ∨ p = dest.withSuffix ".html" ∨ p = dest.withSuffix ".json" ∨
    p = dest.withSuffix ".md"

theorem mem_files_dwrb {env : DlEnv} {fs : Fs} {url : String} {dest : PyPath}
    {sol : Solution} {out : DownloadResult × Fs × List Event} {p : PyPath}
    (h : downloadWithResponseBody env fs url dest sol = some out)
    (hp : p ∈ out.2.1.files) : p ∈ fs.files ∨ newFileOf dest p := by
  unfold downloadWithResponseBody at h
  split at h
  · exact absurd h (by simp)
  · split at h
    · cases h
      exact Or.inl hp
    · split at h
      · cases h
        rcases mem_files_writePayload hp with h1 | h1
        · exact Or.inl h1
        · exact Or.inr (Or.inl h1)
      · split at h
        · cases h
          exact Or.inl hp
        · split at h
          · cases h
            rcases mem_files_htmlWrite hp with h1 | h1 | h1
            · exact Or.inl h1
            · exact Or.inr (Or.inr (Or.inl h1))
            · exact Or.inr (Or.inr (Or.inr (Or.inr h1)))
          · split at h
            · cases h
              rcases mem_files_writePayload hp with h1 | h1
              · exact Or.inl h1
              · exact Or.inr (Or.inr (Or.inr (Or.inl h1)))
            · cases h
              exact Or.inl hp

theorem mem_files_dwhr {env : DlEnv} {fs : Fs} {dest : PyPath}
    {sol : Solution} {out : DownloadResult × Fs × List Event} {p : PyPath}
    (h : downloadWithHtmlResponse env fs dest sol = some out)
    (hp : p ∈ out.2.1.files) : p ∈ fs.files ∨ newFileOf dest p := by
  unfold downloadWithHtmlResponse at h
  split at h
  · exact absurd h (by simp)
  · split at h
    · exact absurd h (by simp)
    · cases h
      rcases mem_files_htmlWrite hp with h1 | h1 | h1
      · exact Or.inl h1
      · exact Or.inr (Or.inr (Or.inl h1))
      · exact Or.inr (Or.inr (Or.inr (Or.inr h1)))

theorem mem_files_dws {env : DlEnv} {fs : Fs} {url : String} {dest : PyPath}
    {sol : Solution} {p : PyPath}
    (hp : p ∈ (downloadWithSolution env fs url dest sol).2.1.files) :
    p ∈ fs.files ∨ p = dest := by
  unfold downloadWithSolution at hp
  split at hp
  · exact Or.inl hp
  · split at hp
    · exact Or.inl hp
    · split at hp
      · exact Or.inl hp
      · split at hp
        · rcases mem_files_removeFile hp with ⟨h1, h2⟩
          split at h1
          · rcases mem_files_addFile h1 with h3 | h3
            · exact Or.inl h3
            · exact absurd h3 h2
          · exact Or.inl h1
        · rcases mem_files_addFile hp with h1 | h1
          · rcases mem_files_removeFile h1 with ⟨h2, h3⟩
            rcases mem_files_addFile h2 with h4 | h4
            · exact Or.inl h4
            · exact absurd h4 h3
          · exact Or.inr h1

theorem mem_files_tail {env : DlEnv} {fs1 : Fs} {url : String} {dest : PyPath}
    {sol : Solution} {ev : List Event} {p : PyPath}
    (hp : p ∈ (downloadTail env fs1 url dest sol ev).2.1.files) :
    p ∈ fs1.files ∨ newFileOf dest p := by
  unfold downloadTail at hp
  split at hp
  · rename_i step hstep
    exact mem_files_dwhr hstep hp
  · split at hp
    · split at hp
      · exact Or.inl hp
      · split at hp
        · rename_i step hstep
          split at hp
          · exact mem_files_dwrb hstep hp
          · rcases mem_files_dws hp with h1 | h1
            · exact mem_files_dwrb hstep h1
            · exact Or.inr (Or.inl h1)
        · rename_i hstep
          rcases mem_files_dws hp with h1 | h1
          · exact Or.inl h1
          · exact Or.inr (Or.inl h1)
    · rcases mem_files_dws hp with h1 | h1
      · exact Or.inl h1
      · exact Or.inr (Or.inl h1)

theorem mem_files_download {env : DlEnv} {fs : Fs} {url : String}
    {dest : PyPath} {p : PyPath}
    (hp : p ∈ (download env fs url dest).2.1.files) :
    p ∈ fs.files ∨ newFileOf dest p := by
  unfold download at hp
  split at hp
  · rw [files_mkdirParents] at hp
    exact Or.inl hp
  · split at hp
    · rw [files_mkdirParents] at hp
      exact Or.inl hp
    · split at hp
      · rename_i step hstep
        split at hp
        · rcases mem_files_dwrb hstep hp with h1 | h1
          · rw [files_mkdirParents] at h1
            exact Or.inl h1
          · exact Or.inr h1
        · rcases mem_files_tail hp with h1 | h1
          · rcases mem_files_dwrb hstep h1 with h2 | h2
            · rw [files_mkdirParents] at h2
              exact Or.inl h2
            · exact Or.inr h2
          · exact Or.inr h1
      · rcases mem_files_tail hp with h1 | h1
        · rw [files_mkdirParents] at h1
          exact Or.inl h1
        · exact Or.inr h1

/-- C5: a `download` call never leaves a `.part` staging file behind: as
long as the requested destination is not itself a `.part`-suffixed path,
every file of the final filesystem whose suffix ends in `.part` was
already present before the call, on every exit path (the staging file is
renamed onto the destination on success and unlinked on failure). -/
theorem download_leaves_no_part (env : DlEnv) (fs : Fs) (url : String)
    (dest : PyPath) (p : PyPath)
    (hdest : strEndsWith dest.suffix ".part" = false)
    (hp : p ∈ (download env fs url dest).2.1.files)
    (hpart : strEndsWith p.suffix ".part" = true) : p ∈ fs.files := by
  rcases mem_files_download hp with h1 | h1 | h1 | h1 | h1
  · exact h1
  · rw [h1] at hpart
    rw [hpart] at hdest
    exact absurd hdest (by decide)
  · rw [h1] at hpart
    exact absurd (show strEndsWith ".html" ".part" = true from hpart) (by decide)
  · rw [h1] at hpart
    exact absurd (show strEndsWith ".json" ".part" = true from hpart) (by decide)
  · rw [h1] at hpart
    exact absurd (show strEndsWith ".md" ".part" = true from hpart) (by decide)

/-- Witness for C5: a run whose resolver fails leaves the pre-existing
stray `.part` file as the only one, i.e. the `.part` file found after
the call was already there before it. -/
theorem download_leaves_no_part_witness :
    strEndsWith destA.suffix ".part" = false ∧
      partFile ∈ (download failEnv fsPart urlA destA).2.1.files ∧
      strEndsWith partFile.suffix ".part" = true ∧
      partFile ∈ fsPart.files :=
  ⟨by decide, by decide, by decide,
   download_leaves_no_part failEnv fsPart urlA destA partFile
     (by decide) (by decide) (by decide)⟩

theorem existsCheck_mkdirParents (fs : Fs) (d : String) (dest : PyPath) :
    existsCheck (fs.mkdirParents d) dest = existsCheck fs dest := by
  unfold existsCheck Fs.fileExists
  rw [files_mkdirParents]

/-- C4: on a well-formed filesystem (every file's directory exists), if
the destination or one of its `.html`, `.json`, `.md` siblings already
exists, `download` returns the `exists` success, leaves the filesystem
exactly as it was, and performs no network call. -/
theorem exists_short_circuit (env : DlEnv) (fs : Fs) (url : String)
    (dest : PyPath)
    (hwf : ∀ q ∈ fs.files, q.dir ∈ fs.dirs)
    (hex : existsCheck fs dest = true) :
    download env fs url dest =
      ({ success := true, message := "Already exists", code := "exists",
         status_code := none, bytes_written := 0, via := "api" }, fs,
       [Event.mkdirCall dest.dir]) ∧
      (download env fs url dest).2.1 = fs ∧
      ((download env fs url dest).2.2.filter Event.isNetwork) = [] := by
  have hdir : dest.dir ∈ fs.dirs := by
    unfold existsCheck Fs.fileExists at hex
    simp only [Bool.or_eq_true, decide_eq_true_eq] at hex
    rcases hex with ((h | h) | h) | h
    · exact hwf dest h
    · exact hwf (dest.withSuffix ".html") h
    · exact hwf (dest.withSuffix ".json") h
    · exact hwf (dest.withSuffix ".md") h
  have hmk : fs.mkdirParents dest.dir = fs := by
    unfold Fs.mkdirParents
    rw [if_pos hdir]
  have hmain : download env fs url dest =
      ({ success := true, message := "Already exists", code := "exists",
         status_code := none, bytes_written := 0, via := "api" }, fs,
       [Event.mkdirCall dest.dir]) := by
    unfold download
    rw [existsCheck_mkdirParents, if_pos hex, hmk]
  refine ⟨hmain, ?_, ?_⟩
  · rw [hmain]
  · rw [hmain]
    rfl

/-- Witness for C4: on `fsExist`, which already holds `destA`, a call
returns `exists`, modifies nothing and makes no network call. -/
theorem exists_short_circuit_witness :
    (∀ q ∈ fsExist.files, q.dir ∈ fsExist.dirs) ∧
      existsCheck fsExist destA = true ∧
      (download failEnv fsExist urlA destA).2.1 = fsExist ∧
      ((download failEnv fsExist urlA destA).2.2.filter Event.isNetwork) = [] :=
  ⟨by decide, by decide,
   (exists_short_circuit failEnv fsExist urlA destA (by decide) (by decide)).2.1,
   (exists_short_circuit failEnv fsExist urlA destA (by decide) (by decide)).2.2⟩

theorem tail_trace_shape (env : DlEnv) (fs1 : Fs) (url : String)
    (dest : PyPath) (sol : Solution) (evAcc : List Event) :
    ∃ rest, (downloadTail env fs1 url dest sol evAcc).2.2 = evAcc ++ rest := by
  unfold downloadTail
  split
  · exact ⟨_, rfl⟩
  · split
    · split
      · exact ⟨_, rfl⟩
      · split
        · split
          · exact ⟨_, by rw [List.append_assoc]⟩
          · exact ⟨_, by rw [List.append_assoc, List.append_assoc]⟩
        · exact ⟨_, by rw [List.append_assoc]⟩
    · exact ⟨_, rfl⟩

theorem download_trace_shape (env : DlEnv) (fs : Fs) (url : String)
    (dest : PyPath)
    (hex : existsCheck (fs.mkdirParents dest.dir) dest = false) :
    ∃ rest, (download env fs url dest).2.2 =
      Event.mkdirCall dest.dir :: Event.resolverCall url :: rest := by
  unfold download
  rw [if_neg (by rw [hex]; exact Bool.false_ne_true)]
  cases hs : env.solve url with
  | error e => exact ⟨[], rfl⟩
  | ok sol =>
    cases hb : downloadWithResponseBody env (fs.mkdirParents dest.dir) url dest sol with
    | some step =>
      by_cases ht : bodyResultTerminal step.1 = true
      · refine ⟨step.2.2, ?_⟩
        simp only [hb, ht, if_true]
        rfl
      · obtain ⟨rest, hr⟩ := tail_trace_shape env step.2.1 url dest sol
          ([Event.mkdirCall dest.dir, Event.resolverCall url] ++ step.2.2)
        refine ⟨step.2.2 ++ rest, ?_⟩
        simp only [hb, if_neg ht]
        rw [hr]
        simp [List.append_assoc]
    | none =>
      obtain ⟨rest, hr⟩ := tail_trace_shape env (fs.mkdirParents dest.dir)
        url dest sol [Event.mkdirCall dest.dir, Event.resolverCall url]
      refine ⟨rest, ?_⟩
      simp only [hb]
      rw [hr]
      rfl

/-- C1 counterexample: a fresh destination and an environment whose
resolver call fails.  The claim says the first fetch is a plain-HTTP GET
and the resolver runs only after such a direct attempt fails with a
bot-related signature; this run invokes the resolver as its one and only
network operation, with no plain-HTTP GET anywhere in the trace. -/
theorem direct_first_counterexample :
    existsCheck (emptyFs.mkdirParents destA.dir) destA = false ∧
      (download failEnv emptyFs urlA destA).2.2.filter Event.isNetwork =
        [Event.resolverCall urlA] := by
  exact ⟨by decide, by decide⟩

/-- C1 as amended: whenever the destination and its sibling artifacts do
not already exist, the first network operation of `download` is always
the FlareSolverr resolver invocation for the URL; no plain-HTTP attempt
precedes it and no bot-signature classification is consulted. -/
theorem escalation_unconditional (env : DlEnv) (fs : Fs) (url : String)
    (dest : PyPath)
    (hex : existsCheck (fs.mkdirParents dest.dir) dest = false) :
    ((download env fs url dest).2.2.filter Event.isNetwork).head? =
      some (Event.resolverCall url) := by
  obtain ⟨rest, hr⟩ := download_trace_shape env fs url dest hex
  rw [hr]
  rfl

/-- Witness for C1 (amended): the concrete failing run starts with the
resolver call as its first network event. -/
theorem escalation_unconditional_witness :
    existsCheck (emptyFs.mkdirParents destB.dir) destB = false ∧
      ((download failEnv emptyFs urlA destB).2.2.filter Event.isNetwork).head? =
        some (Event.resolverCall urlA) :=
  ⟨by decide, escalation_unconditional failEnv emptyFs urlA destB (by decide)⟩

/-- C2 counterexample: two successive calls for URLs of the same domain
(here literally the same URL), the first of which escalates and fails;
the second call still performs its own resolver invocation instead of
returning a memoized failure. -/
theorem domain_memoization_counterexample :
    (download failEnv emptyFs urlA destA).1.success = false ∧
      (download failEnv emptyFs urlA destA).2.2.filter Event.isNetwork =
        [Event.resolverCall urlA] ∧
      (download failEnv (download failEnv emptyFs urlA destA).2.1
          urlA destB).2.2.filter Event.isNetwork =
        [Event.resolverCall urlA] := by
  exact ⟨by decide, by decide, by decide⟩

/-- C2 as amended: the strategy holds no cross-call state, so a failed
escalation is never memoized: any two successive calls whose destinations
are fresh each trigger their own resolver invocation, even for the same
domain or the same URL. -/
theorem no_domain_memoization (env : DlEnv) (fs : Fs) (u1 u2 : String)
    (d1 d2 : PyPath)
    (h1 : existsCheck (fs.mkdirParents d1.dir) d1 = false)
    (h2 : existsCheck ((download env fs u1 d1).2.1.mkdirParents d2.dir) d2 = false) :
    Event.resolverCall u1 ∈ (download env fs u1 d1).2.2 ∧
      Event.resolverCall u2 ∈
        (download env (download env fs u1 d1).2.1 u2 d2).2.2 := by
  obtain ⟨r1, hr1⟩ := download_trace_shape env fs u1 d1 h1
  obtain ⟨r2, hr2⟩ := download_trace_shape env (download env fs u1 d1).2.1 u2 d2 h2
  rw [hr1, hr2]
  exact ⟨List.mem_cons_of_mem _ (List.mem_cons_self _ _),
    List.mem_cons_of_mem _ (List.mem_cons_self _ _)⟩

/-- Witness for C2 (amended): both concrete calls on the same URL carry
a resolver invocation in their traces. -/
theorem no_domain_memoization_witness :
    existsCheck (emptyFs.mkdirParents destA.dir) destA = false ∧
      Event.resolverCall urlA ∈ (download failEnv emptyFs urlA destA).2.2 ∧
      Event.resolverCall urlA ∈
        (download failEnv (download failEnv emptyFs urlA destA).2.1
          urlA destB).2.2 :=
  ⟨by decide,
   (no_domain_memoization failEnv emptyFs urlA urlA destA destB
     (by decide) (by decide)).1,
   (no_domain_memoization failEnv emptyFs urlA urlA destA destB
     (by decide) (by decide)).2⟩

/-- C3 counterexample: the resolver captured an HTML body for a target
URL containing `.pdf`.  The captured-body stage does classify it
`not_pdf`, but `download` does not return that result: it falls through
to HTML persistence and ends with `{success := true, code := "html"}`,
refuting that the `not_pdf` failure is terminal. -/
theorem not_pdf_terminal_counterexample :
    downloadWithResponseBody envC3 (emptyFs.mkdirParents destA.dir)
        urlA destA solC3 =
      some ({ success := false, message := "Not a PDF response",
              code := "not_pdf", status_code := some 200,
              bytes_written := 0, via := "api" },
            emptyFs.mkdirParents destA.dir, []) ∧
      (download envC3 emptyFs urlA destA).1.code = "html" ∧
      (download envC3 emptyFs urlA destA).1.success = true := by
  exact ⟨by decide, by decide, by decide⟩

/-- C3 as amended: when the captured body is present, decodes, does not
sniff as PDF and the target URL contains `.pdf`, the captured-body stage
returns the `not_pdf` failure, but `download` treats it as non-terminal:
it falls through to the remaining steps (captured-HTML persistence,
PDF-link extraction, real-HTTP replay) and returns their outcome. -/
theorem not_pdf_falls_through (env : DlEnv) (fs : Fs) (url : String)
    (dest : PyPath) (sol : Solution)
    (hsolve : env.solve url = Except.ok sol)
    (hex : existsCheck (fs.mkdirParents dest.dir) dest = false)
    (hbody : pyTruthy sol.responseBody = true)
    (hb64 : sol.responseBodyBase64 = false)
    (hsniff : pdfSniff (utf8Bytes (sol.responseBody.getD "")) = false)
    (hpdfurl : strContainsSub
      (strLower (pyOrS sol.responseBodyUrl (pyOrS sol.url url))) ".pdf" = true) :
    downloadWithResponseBody env (fs.mkdirParents dest.dir) url dest sol =
      some ({ success := false, message := "Not a PDF response",
              code := "not_pdf", status_code := sol.responseBodyStatus,
              bytes_written := 0, via := "api" },
            fs.mkdirParents dest.dir, []) ∧
      download env fs url dest =
        downloadTail env (fs.mkdirParents dest.dir) url dest sol
          [Event.mkdirCall dest.dir, Event.resolverCall url] := by
  have hstage : downloadWithResponseBody env (fs.mkdirParents dest.dir) url dest sol =
      some ({ success := false, message := "Not a PDF response",
              code := "not_pdf", status_code := sol.responseBodyStatus,
              bytes_written := 0, via := "api" },
            fs.mkdirParents dest.dir, []) := by
    unfold downloadWithResponseBody
    rw [hbody]
    simp only [Bool.not_true, Bool.false_eq_true, if_false, hb64, Bool.false_eq_true,
      if_false, hsniff, hpdfurl, if_true]
  refine ⟨hstage, ?_⟩
  unfold download
  rw [if_neg (by rw [hex]; exact Bool.false_ne_true), hsolve]
  simp only [hstage]
  rfl

/-- Witness for C3 (amended): at the concrete inputs the stage result is
the `not_pdf` failure and `download` equals the fall-through. -/
theorem not_pdf_falls_through_witness :
    downloadWithResponseBody envC3 (emptyFs.mkdirParents destA.dir)
        urlA destA solC3 =
      some ({ success := false, message := "Not a PDF response",
              code := "not_pdf", status_code := solC3.responseBodyStatus,
              bytes_written := 0, via := "api" },
            emptyFs.mkdirParents destA.dir, []) ∧
      download envC3 emptyFs urlA destA =
        downloadTail envC3 (emptyFs.mkdirParents destA.dir) urlA destA solC3
          [Event.mkdirCall destA.dir, Event.resolverCall urlA] :=
  ⟨(not_pdf_falls_through envC3 emptyFs urlA destA solC3 rfl (by decide)
      (by decide) (by decide) (by decide) (by decide)).1,
   (not_pdf_falls_through envC3 emptyFs urlA destA solC3 rfl (by decide)
      (by decide) (by decide) (by decide) (by decide)).2⟩

theorem keyLe_refl (a : Candidate) : keyLe a a :=
  Or.inr ⟨rfl, le_refl _⟩

theorem keyLe_trans {a b c : Candidate} (hab : keyLe a b) (hbc : keyLe b c) :
    keyLe a c := by
  rcases hab with h1 | ⟨h1, h2⟩
  · rcases hbc with h3 | ⟨h3, h4⟩
    · exact Or.inl (lt_trans h1 h3)
    · exact Or.inl (by rw [← h3]; exact h1)
  · rcases hbc with h3 | ⟨h3, h4⟩
    · exact Or.inl (by rw [h1]; exact h3)
    · exact Or.inr ⟨h1.trans h3, le_trans h2 h4⟩

theorem keyLt_true {a b : Candidate} (h : candidateKeyLt a b = true) :
    keyLe a b := by
  unfold candidateKeyLt at h
  simp only [Bool.or_eq_true, Bool.and_eq_true, decide_eq_true_eq, beq_iff_eq] at h
  rcases h with h | ⟨h1, h2⟩
  · exact Or.inl h
  · exact Or.inr ⟨h1, le_of_lt h2⟩

theorem keyLt_false {a b : Candidate} (h : candidateKeyLt a b = false) :
    keyLe b a := by
  unfold candidateKeyLt at h
  simp only [Bool.or_eq_false_iff, Bool.and_eq_false_iff, decide_eq_false_iff_not,
    beq_iff_eq, beq_eq_false_iff_ne, ne_eq] at h
  rcases h with ⟨h1, h2⟩
  rcases lt_or_eq_of_le (Int.not_lt.mp h1) with h3 | h3
  · exact Or.inl h3
  · rcases h2 with h2 | h2
    · exact absurd h3.symm h2
    · exact Or.inr ⟨h3, Nat.not_lt.mp h2⟩

theorem pickCandidate_go (cs : List Candidate) (b r : Candidate)
    (h : cs.foldl
      (fun best c =>
        match best with
        | none => some c
        | some b => if candidateKeyLt b c then some c else some b)
      (some b) = some r) :
    (r = b ∨ r ∈ cs) ∧ keyLe b r ∧ ∀ d ∈ cs, keyLe d r := by
  induction cs generalizing b with
  | nil =>
    cases h
    exact ⟨Or.inl rfl, keyLe_refl _, by intro d hd; cases hd⟩
  | cons c t ih =>
    rw [List.foldl_cons] at h
    by_cases hlt : candidateKeyLt b c = true
    · simp only [hlt, if_true] at h
      obtain ⟨h1, h2, h3⟩ := ih c h
      refine ⟨?_, keyLe_trans (keyLt_true hlt) h2, ?_⟩
      · rcases h1 with h1 | h1
        · exact Or.inr (by rw [h1]; exact List.mem_cons_self c t)
        · exact Or.inr (List.mem_cons_of_mem c h1)
      · intro d hd
        rcases List.mem_cons.mp hd with h4 | h4
        · rw [h4]
          exact h2
        · exact h3 d h4
    · have hlt' : candidateKeyLt b c = false := by
        revert hlt
        cases candidateKeyLt b c <;> simp
      simp only [hlt', Bool.false_eq_true, if_false] at h
      obtain ⟨h1, h2, h3⟩ := ih b h
      refine ⟨?_, h2, ?_⟩
      · rcases h1 with h1 | h1
        · exact Or.inl h1
        · exact Or.inr (List.mem_cons_of_mem c h1)
      · intro d hd
        rcases List.mem_cons.mp hd with h4 | h4
        · rw [h4]
          exact keyLe_trans (keyLt_false hlt') h2
        · exact h3 d h4

theorem pickCandidate_spec (cs : List Candidate) (r : Candidate)
    (h : pickCandidate cs = some r) : r ∈ cs ∧ ∀ d ∈ cs, keyLe d r := by
  cases cs with
  | nil => cases h
  | cons c t =>
    obtain ⟨h1, h2, h3⟩ := pickCandidate_go t c r h
    refine ⟨?_, ?_⟩
    · rcases h1 with h1 | h1
      · rw [h1]
        exact List.mem_cons_self c t
      · exact List.mem_cons_of_mem c h1
    · intro d hd
      rcases List.mem_cons.mp hd with h4 | h4
      · rw [h4]
        exact h2
      · exact h3 d h4

theorem collect_pos (targets : List String) (entries : List PerfEntry)
    (c : Candidate) (hc : c ∈ collectCandidates targets entries) :
    0 < c.score := by
  unfold collectCandidates at hc
  rcases List.mem_filterMap.mp hc with ⟨⟨i, e⟩, _, heq⟩
  unfold entryCandidate at heq
  split at heq
  · exact absurd heq (by simp)
  · split at heq
    · split at heq
      · exact absurd heq (by simp)
      · split at heq
        · rename_i hpos
          cases heq
          exact hpos
        · exact absurd heq (by simp)
    · exact absurd heq (by simp)

/-- C8: candidate selection is a deterministic function of the log
entries (it is a pure function of `targets` and `entries`); the kept
candidates all carry a positive score, and the selected candidate is a
kept one whose `(score, index)` key is maximal — any other kept
candidate either scores strictly lower or, at equal score, has a lower
or equal (i.e. earlier or same) sequence index, so ties go to the later
entry.  The winning request id is what `selectRequestId` reports. -/
theorem candidate_selection (targets : List String) (entries : List PerfEntry)
    (c : Candidate)
    (h : pickCandidate (collectCandidates targets entries) = some c) :
    selectRequestId targets entries = some c.requestId ∧
      c ∈ collectCandidates targets entries ∧ 0 < c.score ∧
      ∀ d ∈ collectCandidates targets entries,
        d.score < c.score ∨ (d.score = c.score ∧ d.index ≤ c.index) := by
  obtain ⟨hmem, hmax⟩ := pickCandidate_spec _ _ h
  refine ⟨?_, hmem, collect_pos _ _ _ hmem, hmax⟩
  unfold selectRequestId
  rw [h]
  rfl

/-- Witness for C8: two identically scored entries; the selection picks
the later one (index 1, request id `B`), which is a kept candidate with
positive score. -/
theorem candidate_selection_witness :
    pickCandidate (collectCandidates tieTargets tieEntries) = some tieWinner ∧
      selectRequestId tieTargets tieEntries = some "B" ∧
      tieWinner ∈ collectCandidates tieTargets tieEntries ∧
      0 < tieWinner.score :=
  ⟨by decide,
   (candidate_selection tieTargets tieEntries tieWinner (by decide)).1,
   (candidate_selection tieTargets tieEntries tieWinner (by decide)).2.1,
   (candidate_selection tieTargets tieEntries tieWinner (by decide)).2.2.1⟩

end PsyArt
